import Mathlib

/-!
Verification of the XMUM eServices auto-booking script
(`skill/scripts/auto_booking.py`).

The pure decision logic of the script is embedded shallowly: HTTP traffic is
modelled by a `Portal` environment (a deterministic map from requests to
responses), and every side-effecting routine is translated to a function that
returns its result together with the list of observable events it emits
(availability queries, booking submissions, CSRF fetches, login attempts,
sleeps, process exit).  Machine-level concerns (actual sockets, HTML syntax)
are abstracted at the same boundary the script itself abstracts them
(`requests` / `BeautifulSoup` results).
-/

namespace AutoBooking

/-! ## String helpers (Python `str.lower` and the `in` substring test) -/

/-- ASCII lower-casing of one character, as `str.lower` acts on the ASCII
range (all markers scanned by the script are ASCII). -/
def lowerChar (c : Char) : Char :=
  if 'A' ≤ c ∧ c ≤ 'Z' then Char.ofNat (c.toNat + 32) else c

/-- Lower-case a string character by character. -/
def lowerStr (s : String) : String :=
  ⟨s.data.map lowerChar⟩

/-- `needle` occurs as a contiguous substring of `hay` (Python `needle in hay`
on lists of characters). -/
def containsSubList (needle : List Char) : List Char → Bool
  | [] => needle.isEmpty
  | c :: t => needle.isPrefixOf (c :: t) || containsSubList needle t

/-- Python's `needle in hay` for strings. -/
def containsSub (needle hay : String) : Bool :=
  containsSubList needle.data hay.data

/-- Python's `s.split(sep)` for a one-character separator, on character
lists: empty fields are kept, the empty string splits to one empty field. -/
def splitOnChar (sep : Char) : List Char → List (List Char)
  | [] => [[]]
  | c :: t =>
    let r := splitOnChar sep t
    if c = sep then [] :: r
    else
      match r with
      | h :: t2 => (c :: h) :: t2
      | [] => [[c]]

/-- Python's `s.split(sep)` for strings and a one-character separator. -/
def pySplit (s : String) (sep : Char) : List String :=
  (splitOnChar sep s.data).map fun l => ⟨l⟩

/-- ASCII whitespace as `str.strip` removes it. -/
def isSpaceChar (c : Char) : Bool :=
  c = ' ' || c = '\t' || c = '\n' || c = '\r'

/-- Python's `s.strip()`. -/
def pyStrip (s : String) : String :=
  ⟨((s.data.dropWhile isSpaceChar).reverse.dropWhile isSpaceChar).reverse⟩

/-- Value of a decimal digit character. -/
def digitVal (c : Char) : Nat := c.toNat - 48

/-- Decimal digit test. -/
def isDigitChar (c : Char) : Bool := '0' ≤ c && c ≤ '9'

/-- Parse a non-empty all-digit string as a decimal number (what
`strptime`'s numeric fields accept). -/
def decToNat? (s : String) : Option Nat :=
  if s.data ≠ [] ∧ s.data.all isDigitChar then
    some (s.data.foldl (fun a c => 10 * a + digitVal c) 0)
  else none

/-! ## Login-response classification (`login`, lines 181–190) -/

/-- The four classifications the `login` routine distinguishes on the body of
the `/authenticate` response. -/
inductive LoginClass where
  | success : LoginClass
  | wrongCaptcha : LoginClass
  | wrongCredentials : LoginClass
  | unknown (finalUrl : String) : LoginClass
deriving DecidableEq

/-- `r.text` classification of `login`: the body is lower-cased and scanned
for markers, in the priority of the `if/elif` chain of lines 181–190. -/
def classifyLogin (body url : String) : LoginClass :=
  let t := lowerStr body
  if containsSub "logout" t || containsSub "dashboard" t then .success
  else if containsSub "captcha" t && containsSub "incorrect" t then .wrongCaptcha
  else if containsSub "password" t && containsSub "incorrect" t then .wrongCredentials
  else .unknown url

/-- The boolean `login` returns once the response is classified: `True`
exactly on the success branch, every other branch falls to `return False`. -/
def loginReturn (body url : String) : Bool :=
  match classifyLogin body url with
  | .success => true
  | _ => false

/-! ## Room-category table lookup (`ROOM_TABLE_IDS`, line 33; use at 219) -/

/-- Python `dict.get` on a small association list of string keys. -/
def dictGet : List (String × String) → String → Option String
  | [], _ => none
  | (k, v) :: t, key => if key = k then some v else dictGet t key

/-- The module-level `ROOM_TABLE_IDS` dictionary. -/
def ROOM_TABLE_IDS : List (String × String) :=
  [("silent", "silent_study_room_table"),
   ("study", "study_room_table"),
   ("group", "group_discussion_room_table"),
   ("success", "student_success_room_table")]

/-- Line 219: `ROOM_TABLE_IDS.get(room_type, ROOM_TABLE_IDS["group"])`. -/
def tableIdFor (room_type : String) : String :=
  (dictGet ROOM_TABLE_IDS room_type).getD
    ((dictGet ROOM_TABLE_IDS "group").getD "")

/-! ## Time-slot preference parsing (`parse_time_slots`, lines 57–65) -/

/-- A time slot as the script handles it: a pair of raw strings, compared by
exact string equality. -/
abbrev Slot := String × String

/-- The body of the `parse_time_slots` loop (lines 60–64): strip the entry,
split it on `-`, and append the stripped pair exactly when the split gives
two parts. -/
def parseSlotStep (slots : List Slot) (s : String) : List Slot :=
  let s2 := pyStrip s
  match pySplit s2 '-' with
  | [a, b] => slots ++ [(pyStrip a, pyStrip b)]
  | _ => slots

/-- `parse_time_slots`: split the argument on commas and run the loop above
over the entries. -/
def parse_time_slots (time_str : String) : List Slot :=
  (pySplit time_str ',').foldl parseSlotStep []

/-- Module constant `DEFAULT_WEEKDAY_TIMES` (line 53). -/
def DEFAULT_WEEKDAY_TIMES : List String := ["19:00-21:00", "17:00-19:00", "15:00-17:00"]

/-- Module constant `DEFAULT_WEEKEND_TIMES` (line 54). -/
def DEFAULT_WEEKEND_TIMES : List String := ["15:00-17:00", "13:00-15:00", "11:00-13:00"]

/-! ## Dates (`datetime` calls used by the script) -/

/-- A proleptic-Gregorian calendar date, standing for Python's
`datetime` values as the script uses them (`weekday`, `strftime("%Y-%m-%d")`,
`+ timedelta(days=2)`). -/
structure Date where
  year : Nat
  month : Nat
  day : Nat
deriving DecidableEq

/-- Gregorian leap-year rule. -/
def isLeap (y : Nat) : Bool :=
  y % 4 == 0 && (y % 100 != 0 || y % 400 == 0)

/-- Length of month `m` (1–12) in a year of leap status `leap`. -/
def monthLen (leap : Bool) (m : Nat) : Nat :=
  match m with
  | 1 => 31 | 2 => if leap then 29 else 28 | 3 => 31 | 4 => 30
  | 5 => 31 | 6 => 30 | 7 => 31 | 8 => 31
  | 9 => 30 | 10 => 31 | 11 => 30 | 12 => 31
  | _ => 0

/-- Days in the months strictly before month `m`. -/
def daysBeforeMonth (leap : Bool) (m : Nat) : Nat :=
  (List.range (m - 1)).foldl (fun acc i => acc + monthLen leap (i + 1)) 0

/-- Days in the proleptic-Gregorian years strictly before year `y`. -/
def daysBeforeYear (y : Nat) : Nat :=
  365 * (y - 1) + (y - 1) / 4 - (y - 1) / 100 + (y - 1) / 400

/-- Python's `date.toordinal`: day count with 0001-01-01 ↦ 1. -/
def toOrdinal (d : Date) : Nat :=
  daysBeforeYear d.year + daysBeforeMonth (isLeap d.year) d.month + d.day

/-- Python's `date.weekday`: Monday ↦ 0 … Sunday ↦ 6 (0001-01-01 was a
Monday in the proleptic Gregorian calendar). -/
def pyWeekday (d : Date) : Nat :=
  (toOrdinal d + 6) % 7

/-- The day after `d` (valid dates only). -/
def nextDay (d : Date) : Date :=
  if d.day < monthLen (isLeap d.year) d.month then ⟨d.year, d.month, d.day + 1⟩
  else if d.month < 12 then ⟨d.year, d.month + 1, 1⟩
  else ⟨d.year + 1, 1, 1⟩

/-- `d + timedelta(days = n)`. -/
def addDays (d : Date) : Nat → Date
  | 0 => d
  | n + 1 => nextDay (addDays d n)

/-- Zero-padded two-digit rendering used by `strftime`. -/
def pad2 (n : Nat) : String :=
  if n < 10 then "0" ++ toString n else toString n

/-- Zero-padded four-digit year rendering of `%Y`. -/
def pad4 (n : Nat) : String :=
  if n < 10 then "000" ++ toString n
  else if n < 100 then "00" ++ toString n
  else if n < 1000 then "0" ++ toString n
  else toString n

/-- `strftime("%Y-%m-%d")`. -/
def fmtDate (d : Date) : String :=
  pad4 d.year ++ "-" ++ pad2 d.month ++ "-" ++ pad2 d.day

/-- `datetime.strptime(s, "%Y-%m-%d")` as the script uses it: three dash
separated decimal fields forming a valid calendar date; anything else raises
`ValueError`, modelled as `none`. -/
def parseDate (s : String) : Option Date :=
  match pySplit s '-' with
  | [ys, ms, ds] =>
    match decToNat? ys, decToNat? ms, decToNat? ds with
    | some y, some m, some d =>
      if 1 ≤ y ∧ 1 ≤ m ∧ m ≤ 12 ∧ 1 ≤ d ∧ d ≤ monthLen (isLeap y) m then
        some ⟨y, m, d⟩
      else none
    | _, _, _ => none
  | _ => none

/-! ## Portal environment

The HTTP surface the script talks to, as a deterministic environment.  A
failing call (`requests` exception, non-2xx status via `raise_for_status`,
JSON decode error) is the `Except.error` case. -/

/-- One `<button class="booking-btn">` of an availability table, with the
data attributes the script reads and its `disabled` marker. -/
structure Button where
  disabled : Bool
  room_id : String
  room_name : String
  start_time : String
  end_time : String
  date : String
deriving DecidableEq

/-- The `info` dictionary `get_available_rooms` builds per button
(lines 239–245). -/
structure RoomInfo where
  room_id : String
  room_name : String
  start_time : String
  end_time : String
  date : String
deriving DecidableEq

/-- The form fields of a `book-library-room` submission other than the CSRF
token (lines 262–268). -/
structure BookReq where
  room_id : String
  date : String
  start_time : String
  end_time : String
deriving DecidableEq

/-- The JSON body of a `book-library-room` response (`code`, `message`). -/
structure BookResp where
  code : Int
  message : String
deriving DecidableEq

/-- The portal as the booking pass observes it: the availability fragment per
requested date (a list of tables, each an id with its buttons), the response
to each booking submission, and the CSRF token the booking page yields
(`none` when `extract_csrf_token` fails). -/
structure Portal where
  fragment : String → Except Unit (List (String × List Button))
  bookResp : BookReq → Except Unit BookResp
  csrf : Option String

/-- `soup.find("table", {"id": table_id})`: first table of the fragment with
the wanted id. -/
def findTable : List (String × List Button) → String → Option (List Button)
  | [], _ => none
  | (tid, btns) :: rest, want =>
    if tid = want then some btns else findTable rest want

/-- The button loop of `get_available_rooms` (lines 236–249): skip disabled
buttons, keep every remaining button when no target slot is given, else keep
exactly the buttons whose start and end equal the target. -/
def collectAvailable (target : Option Slot) : List Button → List RoomInfo
  | [] => []
  | b :: rest =>
    if b.disabled then collectAvailable target rest
    else
      let info : RoomInfo :=
        ⟨b.room_id, b.room_name, b.start_time, b.end_time, b.date⟩
      match target with
      | none => info :: collectAvailable target rest
      | some (s, e) =>
        if b.start_time = s ∧ b.end_time = e then info :: collectAvailable target rest
        else collectAvailable target rest

/-- `get_available_rooms` (lines 213–255): fetch the fragment for the date,
locate the table of the requested room category, and collect its available
buttons; a fetch error or a missing table yields the empty list. -/
def get_available_rooms (p : Portal) (booking_date : String)
    (room_type : String) (target : Option Slot) : List RoomInfo :=
  let table_id := tableIdFor room_type
  match p.fragment booking_date with
  | .error _ => []
  | .ok tables =>
    match findTable tables table_id with
    | none => []
    | some btns => collectAvailable target btns

/-! ## Observable events -/

/-- The externally observable actions of one run: login attempts, the CSRF
fetch, availability queries (with the CSRF header they carry), booking
submissions (with header and form token), sleeps, and process exit. -/
inductive Ev where
  | loginAttempt (n : Nat) : Ev
  | fetchCsrf : Ev
  | query (date token room_type : String) (target : Option Slot) : Ev
  | book (headerToken formToken : String) (req : BookReq) : Ev
  | sleep (seconds : Nat) : Ev
  | exit (code : Nat) : Ev
deriving DecidableEq

/-- `book_room` (lines 258–284): POST the booking, `True` exactly when the
response parses and carries `code == 200`; a transport error yields `False`.
The CSRF token travels both as the `X-CSRF-TOKEN` header and the `_token`
form field. -/
def book_room_ev (p : Portal) (info : RoomInfo) (token : String) :
    Bool × List Ev :=
  let req : BookReq := ⟨info.room_id, info.date, info.start_time, info.end_time⟩
  let ok :=
    match p.bookResp req with
    | .error _ => false
    | .ok resp => resp.code == 200
  (ok, [Ev.book token token req])

/-! ## The per-date booking pass (`book_rooms`, lines 287–377) -/

/-- Lines 327–332: the slot list tried for a day — the user list when one was
passed, else the weekend or weekday defaults by `weekday() >= 5`. -/
def resolveSlots (time_prefs : Option (List Slot)) (bd : Date) : List Slot :=
  match time_prefs with
  | some prefs => prefs
  | none =>
    if 5 ≤ pyWeekday bd then
      parse_time_slots (String.intercalate "," DEFAULT_WEEKEND_TIMES)
    else
      parse_time_slots (String.intercalate "," DEFAULT_WEEKDAY_TIMES)

/-- The preference-order search of lines 348–357: query each slot in list
order; at the first slot with a non-empty result, book the first room of the
result and stop. -/
def searchSlots (p : Portal) (token date_str room_type : String) :
    List Slot → Bool × List Ev
  | [] => (false, [])
  | sl :: rest =>
    match get_available_rooms p date_str room_type (some sl) with
    | [] =>
      let next := searchSlots p token date_str room_type rest
      (next.1, Ev.query date_str token room_type (some sl) :: next.2)
    | r :: _ =>
      let b := book_room_ev p r token
      (b.1, Ev.query date_str token room_type (some sl) :: b.2)

/-- The any-time branch of lines 343–346: one unfiltered query; book the
first returned room, if any. -/
def searchAnyTime (p : Portal) (token date_str room_type : String) :
    Bool × List Ev :=
  match get_available_rooms p date_str room_type none with
  | [] => (false, [Ev.query date_str token room_type none])
  | r :: _ =>
    let b := book_room_ev p r token
    (b.1, Ev.query date_str token room_type none :: b.2)

/-- One iteration of the date loop (lines 317–368): resolve the slot list,
search (any-time or preference order), then build the status string of lines
359–367 — on a failed or roomless search the status re-queries every slot of
the list to tell `failed` from `no_rooms` — and sleep one second. Returns the
status recorded for the date and the events emitted. -/
def processDate (p : Portal) (token room_type : String)
    (time_prefs : Option (List Slot)) (bd : Date) : String × List Ev :=
  let date_str := fmtDate bd
  let slots_to_try := resolveSlots time_prefs bd
  let search :=
    if slots_to_try.isEmpty then searchAnyTime p token date_str room_type
    else searchSlots p token date_str room_type slots_to_try
  let status :=
    if search.1 then "success"
    else if slots_to_try.any
        (fun sl => !(get_available_rooms p date_str room_type (some sl)).isEmpty) then
      "failed"
    else "no_rooms"
  let reclassEvs :=
    if search.1 then []
    else slots_to_try.map fun sl => Ev.query date_str token room_type (some sl)
  (status, search.2 ++ reclassEvs ++ [Ev.sleep 1])

/-- `book_rooms` (lines 287–377): extract the CSRF token once; resolve the
date list (the explicit date when given — `False` on a `strptime` failure —
else now + 2 days); process each date; return `True`. -/
def book_rooms (p : Portal) (target_date : Option String)
    (time_prefs : Option (List Slot)) (room_type : String) (now : Date) :
    Bool × List Ev :=
  match p.csrf with
  | none => (false, [Ev.fetchCsrf])
  | some token =>
    let dates? : Option (List Date) :=
      match target_date with
      | some s => (parseDate s).map fun d => [d]
      | none => some [addDays now 2]
    match dates? with
    | none => (false, [Ev.fetchCsrf])
    | some dates =>
      (true,
       Ev.fetchCsrf ::
         dates.foldl (fun acc d => acc ++ (processDate p token room_type time_prefs d).2) [])

/-! ## The login-retry loop and `main` (lines 380–448) -/

/-- The `for attempt in range(1, 4)` loop of lines 430–439, over the listed
attempt numbers, with a login oracle giving each attempt's outcome: break on
the first success; sleep 2 seconds after a failure that is not the last
attempt; the `else` clause (all attempts failed) is the `false` result. -/
def loginAttempts (login : Nat → Bool) : List Nat → Bool × List Ev
  | [] => (false, [])
  | n :: rest =>
    if login n then (true, [Ev.loginAttempt n])
    else if rest.isEmpty then (false, [Ev.loginAttempt n])
    else
      let next := loginAttempts login rest
      (next.1, Ev.loginAttempt n :: Ev.sleep 2 :: next.2)

/-- The command-line arguments `main` consumes. -/
structure Args where
  time : Option String
  date : Option String
  room_type : String

/-- Lines 411–425: resolve the time-preference list and the any-time flag
from the arguments. -/
def resolveTimeArgs (args : Args) : Option (List Slot) × Bool :=
  match args.time with
  | some t => (some (parse_time_slots t), false)
  | none =>
    match args.date with
    | some _ => (some [], true)
    | none => (none, false)

/-- `main` after credential checks (lines 411–448): resolve preferences, run
the login loop over attempts 1, 2, 3, and either exit 1 after three failures
or run one booking pass. Result: the exit code (`some 1` on login failure,
`none` for a run that completes) and the event trace. -/
def mainRun (login : Nat → Bool) (p : Portal) (args : Args) (now : Date) :
    Option Nat × List Ev :=
  let ta := resolveTimeArgs args
  let la := loginAttempts login [1, 2, 3]
  if la.1 then
    let tp := if ta.2 then some [] else ta.1
    (none, la.2 ++ (book_rooms p args.date tp args.room_type now).2)
  else (some 1, la.2 ++ [Ev.exit 1])

/-! ## Derived predicates used to state the properties -/

/-- The slot filter of `get_available_rooms` as a predicate on one button:
every button passes when no target slot is given, else exactly the buttons
whose start and end strings equal the target's. -/
def matchesTarget (target : Option Slot) (b : Button) : Bool :=
  match target with
  | none => true
  | some (s, e) => if b.start_time = s ∧ b.end_time = e then true else false

/-- The `info` record extracted from one button. -/
def btnInfo (b : Button) : RoomInfo :=
  ⟨b.room_id, b.room_name, b.start_time, b.end_time, b.date⟩

/-- Event classifier: login attempts. -/
def isLoginEv : Ev → Bool
  | .loginAttempt _ => true
  | _ => false

/-- Event classifier: CSRF fetches. -/
def isFetchEv : Ev → Bool
  | .fetchCsrf => true
  | _ => false

/-- Event classifier: availability queries. -/
def isQueryEv : Ev → Bool
  | .query _ _ _ _ => true
  | _ => false

/-- Event classifier: booking submissions. -/
def isBookEv : Ev → Bool
  | .book _ _ _ => true
  | _ => false

/-- Every event a booking pass emits after its CSRF fetch is a query carrying
the pass's token, a booking carrying it as both header and form field, or a
sleep — never another CSRF fetch, login attempt or exit. -/
def passEv (token : String) : Ev → Bool
  | .query _ t _ _ => t == token
  | .book ht ft _ => ht == token && ft == token
  | .sleep _ => true
  | _ => false

/-- Following the claim's words only (no code counterpart): a well-formed
`HH:MM` time, two decimal digits, a colon, two decimal digits. -/
def specWellFormedHHMM (s : String) : Bool :=
  match s.data with
  | [h1, h2, c, m1, m2] =>
    isDigitChar h1 && isDigitChar h2 && c == ':' && isDigitChar m1 && isDigitChar m2
  | _ => false

/-- Following the claim's words only (no code counterpart): a well-formed
`HH:MM-HH:MM` slot entry. -/
def specWellFormedSlot (s : String) : Bool :=
  match pySplit s '-' with
  | [a, b] => specWellFormedHHMM a && specWellFormedHHMM b
  | _ => false

/-! ## Concrete portals used for counterexamples and witnesses -/

/-- One enabled group-room button for the 15:00–17:00 slot of 2025-06-16. -/
def btnA : Button := ⟨false, "R1", "E231", "15:00", "17:00", "2025-06-16"⟩

/-- The info record `get_available_rooms` extracts from `btnA`. -/
def infoA : RoomInfo := ⟨"R1", "E231", "15:00", "17:00", "2025-06-16"⟩

/-- A portal where 2025-06-16 offers exactly `btnA` in the group table and
every booking submission is rejected with portal code 500. -/
def pFail : Portal :=
  { fragment := fun ds =>
      if ds = "2025-06-16" then .ok [("group_discussion_room_table", [btnA])]
      else .error ()
    bookResp := fun _ => .ok ⟨500, "Room already booked"⟩
    csrf := some "tok" }

/-! # Helper lemmas -/

/-- Sanity facts about the calendar and string embedding: 2025-06-14 is a
Saturday (Python weekday 5), 2025-06-13 a Friday, 1970-01-01 a Thursday;
`parse_time_slots`, `parseDate`, `fmtDate` and `addDays` behave as the
Python library calls do on representative inputs. -/
theorem embedding_sanity :
    pyWeekday ⟨2025, 6, 14⟩ = 5 ∧ pyWeekday ⟨2025, 6, 13⟩ = 4 ∧
    pyWeekday ⟨1970, 1, 1⟩ = 3 ∧
    parse_time_slots "19:00-21:00,17:00-19:00"
      = [("19:00", "21:00"), ("17:00", "19:00")] ∧
    parse_time_slots "x,,9" = [] ∧
    lowerStr "LogOut!" = "logout!" ∧
    containsSub "logout" "a logout b" = true ∧
    containsSub "logout" "log out" = false ∧
    parseDate "2025-06-14" = some ⟨2025, 6, 14⟩ ∧
    parseDate "2025-06-31" = none ∧
    fmtDate ⟨2025, 6, 14⟩ = "2025-06-14" ∧
    addDays ⟨2025, 6, 30⟩ 2 = ⟨2025, 7, 2⟩ := by
  repeat constructor <;> decide

/-- The button loop returns exactly the non-disabled buttons matching the
target filter, in document order. -/
theorem collectAvailable_eq (target : Option Slot) (btns : List Button) :
    collectAvailable target btns
      = (btns.filter fun b => !b.disabled && matchesTarget target b).map btnInfo := by
  induction btns with
  | nil => rfl
  | cons b rest ih =>
    cases hd : b.disabled with
    | true => simp [collectAvailable, hd, List.filter_cons, matchesTarget, ih]
    | false =>
      cases target with
      | none => simp [collectAvailable, hd, List.filter_cons, matchesTarget, ih, btnInfo]
      | some sl =>
        rcases sl with ⟨s, e⟩
        by_cases hm : b.start_time = s ∧ b.end_time = e
        · simp [collectAvailable, hd, hm, List.filter_cons, matchesTarget, ih, btnInfo]
        · simp [collectAvailable, hd, hm, List.filter_cons, matchesTarget, ih, btnInfo]

/-- When every slot of the list has no available room, the search queries
every slot in list order and books nothing. -/
theorem searchSlots_all_empty (p : Portal) (token ds rt : String) (slots : List Slot)
    (h : ∀ sl ∈ slots, get_available_rooms p ds rt (some sl) = []) :
    searchSlots p token ds rt slots
      = (false, slots.map fun sl => Ev.query ds token rt (some sl)) := by
  induction slots with
  | nil => rfl
  | cons sl rest ih =>
    have h1 : get_available_rooms p ds rt (some sl) = [] := h sl (by simp)
    simp [searchSlots, h1, ih fun x hx => h x (by simp [hx])]

/-- When a prefix of the slot list is roomless and the next slot has rooms,
the search queries exactly the prefix and the hit slot, books the first room
of the hit slot, and never queries a later slot. -/
theorem searchSlots_hit (p : Portal) (token ds rt : String)
    (pre post : List Slot) (sl : Slot) (r : RoomInfo) (rs : List RoomInfo)
    (hpre : ∀ x ∈ pre, get_available_rooms p ds rt (some x) = [])
    (hsl : get_available_rooms p ds rt (some sl) = r :: rs) :
    searchSlots p token ds rt (pre ++ sl :: post)
      = ((book_room_ev p r token).1,
         (pre.map fun x => Ev.query ds token rt (some x))
           ++ Ev.query ds token rt (some sl) :: (book_room_ev p r token).2) := by
  induction pre with
  | nil => simp [searchSlots, hsl]
  | cons x xs ih =>
    have h1 : get_available_rooms p ds rt (some x) = [] := hpre x (by simp)
    simp [searchSlots, h1, ih fun y hy => hpre y (by simp [hy])]

/-- Full description of one date's processing when the resolved slot list
has a roomless prefix followed by a slot with rooms: the search stops there,
the first room of that slot is booked, and when the booking fails the status
step re-queries the whole list before reporting `failed`. -/
theorem processDate_hit (p : Portal) (token rt : String) (tp : Option (List Slot)) (bd : Date)
    (pre post : List Slot) (sl : Slot) (r : RoomInfo) (rs : List RoomInfo)
    (hs : resolveSlots tp bd = pre ++ sl :: post)
    (hpre : ∀ x ∈ pre, get_available_rooms p (fmtDate bd) rt (some x) = [])
    (hsl : get_available_rooms p (fmtDate bd) rt (some sl) = r :: rs) :
    processDate p token rt tp bd
      = (if (book_room_ev p r token).1 then "success" else "failed",
         ((pre.map fun x => Ev.query (fmtDate bd) token rt (some x))
            ++ Ev.query (fmtDate bd) token rt (some sl) :: (book_room_ev p r token).2)
           ++ (if (book_room_ev p r token).1 then []
               else (pre ++ sl :: post).map fun x => Ev.query (fmtDate bd) token rt (some x))
           ++ [Ev.sleep 1]) := by
  have hne : (pre ++ sl :: post).isEmpty = false := by simp
  have hsearch := searchSlots_hit p token (fmtDate bd) rt pre post sl r rs hpre hsl
  have hany : ((pre ++ sl :: post).any
      fun x => !(get_available_rooms p (fmtDate bd) rt (some x)).isEmpty) = true :=
    List.any_eq_true.mpr ⟨sl, by simp, by simp [hsl]⟩
  cases hb : (book_room_ev p r token).1 <;>
    simp [processDate, hs, hne, hsearch, hany, hb, List.append_assoc]

/-- Full description of one date's processing in any-time mode (empty
resolved slot list): one unfiltered query; the first returned room, if any,
is booked; the status is `no_rooms` unless the booking succeeded, because
the status step re-queries an empty slot list. -/
theorem processDate_anyTime (p : Portal) (token rt : String) (tp : Option (List Slot))
    (bd : Date) (hs : resolveSlots tp bd = []) :
    processDate p token rt tp bd
      = (match get_available_rooms p (fmtDate bd) rt none with
         | [] => ("no_rooms", [Ev.query (fmtDate bd) token rt none, Ev.sleep 1])
         | r :: _ =>
           (if (book_room_ev p r token).1 then "success" else "no_rooms",
            Ev.query (fmtDate bd) token rt none :: ((book_room_ev p r token).2 ++ [Ev.sleep 1]))) := by
  unfold processDate
  rw [hs]
  cases hg : get_available_rooms p (fmtDate bd) rt none with
  | nil => simp [searchAnyTime, hg]
  | cons r rs =>
    cases hb : (book_room_ev p r token).1 <;> simp [searchAnyTime, hg, hb]

/-- Every event a per-date iteration emits is a query or booking carrying the
pass token, or a sleep. -/
theorem searchSlots_passEv (p : Portal) (token ds rt : String) (slots : List Slot) :
    (searchSlots p token ds rt slots).2.all (passEv token) = true := by
  induction slots with
  | nil => rfl
  | cons sl rest ih =>
    cases hg : get_available_rooms p ds rt (some sl) with
    | nil => simp [searchSlots, hg, passEv, ih]
    | cons r rs => simp [searchSlots, hg, passEv, book_room_ev]

/-- As `searchSlots_passEv`, for the any-time search. -/
theorem searchAnyTime_passEv (p : Portal) (token ds rt : String) :
    (searchAnyTime p token ds rt).2.all (passEv token) = true := by
  cases hg : get_available_rooms p ds rt none with
  | nil => simp [searchAnyTime, hg, passEv]
  | cons r rs => simp [searchAnyTime, hg, passEv, book_room_ev]

/-- As `searchSlots_passEv`, for the whole per-date iteration. -/
theorem processDate_passEv (p : Portal) (token rt : String) (tp : Option (List Slot))
    (bd : Date) :
    (processDate p token rt tp bd).2.all (passEv token) = true := by
  have hmap : ∀ l : List Slot, (l.map fun sl =>
      Ev.query (fmtDate bd) token rt (some sl)).all (passEv token) = true := by
    intro l
    induction l with
    | nil => rfl
    | cons a t ih => simp [passEv, ih]
  cases he : (resolveSlots tp bd).isEmpty with
  | true =>
    cases hb : (searchAnyTime p token (fmtDate bd) rt).1 <;>
      simp [processDate, he, hb, List.all_append, searchAnyTime_passEv,
        hmap (resolveSlots tp bd), passEv]
  | false =>
    cases hb : (searchSlots p token (fmtDate bd) rt (resolveSlots tp bd)).1 <;>
      simp [processDate, he, hb, List.all_append, searchSlots_passEv,
        hmap (resolveSlots tp bd), passEv]

/-- Folding the date loop over any accumulator of pass events yields only
pass events. -/
theorem foldlDates_passEv (p : Portal) (token rt : String) (tp : Option (List Slot))
    (dates : List Date) (acc : List Ev) (hacc : acc.all (passEv token) = true) :
    (dates.foldl (fun a d => a ++ (processDate p token rt tp d).2) acc).all
      (passEv token) = true := by
  induction dates generalizing acc with
  | nil => exact hacc
  | cons d ds ih => exact ih _ (by simp [List.all_append, hacc, processDate_passEv])

/-- A booking pass whose CSRF extraction succeeded emits the CSRF fetch
first and after it only pass events carrying the extracted token. -/
theorem book_rooms_trace (p : Portal) (td : Option String) (tp : Option (List Slot))
    (rt : String) (now : Date) (token : String) (h : p.csrf = some token) :
    ∃ rest : List Ev, (book_rooms p td tp rt now).2 = Ev.fetchCsrf :: rest ∧
      rest.all (passEv token) = true := by
  unfold book_rooms
  rw [h]
  cases td with
  | none =>
    exact ⟨_, rfl, foldlDates_passEv p token rt tp [addDays now 2] [] rfl⟩
  | some s =>
    cases hp : parseDate s with
    | none => exact ⟨[], by simp [hp], rfl⟩
    | some d => exact ⟨_, by simp [hp], foldlDates_passEv p token rt tp [d] [] rfl⟩

/-- Every booking pass, whatever its outcome, opens with the CSRF fetch. -/
theorem book_rooms_fetch_first (p : Portal) (td : Option String)
    (tp : Option (List Slot)) (rt : String) (now : Date) :
    (book_rooms p td tp rt now).2.head? = some Ev.fetchCsrf := by
  unfold book_rooms
  cases p.csrf with
  | none => rfl
  | some token =>
    cases td with
    | none => rfl
    | some s => cases hp : parseDate s <;> simp [hp]

/-- A pass event is never a login attempt. -/
theorem passEv_not_login (token : String) (ev : Ev) (h : passEv token ev = true) :
    isLoginEv ev = false := by
  cases ev <;> simp [passEv, isLoginEv] at h ⊢

/-- A pass event is never a CSRF fetch. -/
theorem passEv_not_fetch (token : String) (ev : Ev) (h : passEv token ev = true) :
    isFetchEv ev = false := by
  cases ev <;> simp [passEv, isFetchEv] at h ⊢

/-- A booking pass emits no login attempts. -/
theorem book_rooms_no_login (p : Portal) (td : Option String) (tp : Option (List Slot))
    (rt : String) (now : Date) :
    (book_rooms p td tp rt now).2.countP isLoginEv = 0 := by
  cases hc : p.csrf with
  | none => simp [book_rooms, hc, isLoginEv]
  | some token =>
    obtain ⟨rest, htr, hall⟩ := book_rooms_trace p td tp rt now token hc
    rw [htr, List.countP_cons]
    have hz : rest.countP isLoginEv = 0 := by
      refine List.countP_eq_zero.mpr fun ev hev => ?_
      have := passEv_not_login token ev (by
        have := List.all_eq_true.mp hall ev hev
        exact this)
      simp [this]
    simp [hz, isLoginEv]

/-- The login loop makes at most one attempt per listed attempt number. -/
theorem loginAttempts_countP_le (login : Nat → Bool) (l : List Nat) :
    ((loginAttempts login l).2.countP isLoginEv) ≤ l.length := by
  induction l with
  | nil => simp [loginAttempts]
  | cons n rest ih =>
    cases h : login n with
    | true => simp [loginAttempts, h, isLoginEv]
    | false =>
      cases rest with
      | nil => simp [loginAttempts, h, isLoginEv]
      | cons m r2 =>
        rw [loginAttempts]
        simp only [h, Bool.false_eq_true, if_false, if_true, List.isEmpty_cons,
          List.countP_cons, isLoginEv, List.length_cons, eq_self_iff_true]
        simp only [List.length_cons] at ih
        omega

/-- Folding the date loop keeps the accumulated events as a prefix, so the
pass events contain the CSRF fetch it starts with. -/
theorem book_rooms_fetch_mem (p : Portal) (td : Option String) (tp : Option (List Slot))
    (rt : String) (now : Date) :
    Ev.fetchCsrf ∈ (book_rooms p td tp rt now).2 := by
  unfold book_rooms
  cases p.csrf with
  | none => simp
  | some token =>
    cases td with
    | none => simp
    | some s => cases hp : parseDate s <;> simp [hp]

/-- A fold of `parseSlotStep` over entries none of which splits on `-` into
exactly two parts leaves the accumulator unchanged. -/
theorem foldl_parseSlotStep_malformed (l : List String) (acc : List Slot)
    (h : ∀ e ∈ l, (pySplit (pyStrip e) '-').length ≠ 2) :
    l.foldl parseSlotStep acc = acc := by
  induction l generalizing acc with
  | nil => rfl
  | cons e es ih =>
    have he := h e (by simp)
    have hstep : parseSlotStep acc e = acc := by
      unfold parseSlotStep
      rcases hsp : pySplit (pyStrip e) '-' with _ | ⟨a, _ | ⟨b, _ | ⟨c, t⟩⟩⟩ <;>
        simp [hsp] at he ⊢
    rw [List.foldl_cons, hstep]
    exact ih acc fun x hx => h x (by simp [hx])

/-- A list of availability-query events contains no booking submission. -/
theorem countP_book_query_map (ds token rt : String) (l : List Slot) :
    List.countP (isBookEv ∘ fun x => Ev.query ds token rt (some x)) l = 0 := by
  induction l with
  | nil => rfl
  | cons a t ih => simp [List.countP_cons, isBookEv, ih, Function.comp]

/-! # The claims -/

/-- C10: for each of the four known room categories, `get_available_rooms`
uses that category's 1:1 mapped table identifier; for every other
`room_type` string it silently falls back to the group-discussion table
identifier rather than failing. -/
theorem room_table_fallback :
    tableIdFor "silent" = "silent_study_room_table" ∧
    tableIdFor "study" = "study_room_table" ∧
    tableIdFor "group" = "group_discussion_room_table" ∧
    tableIdFor "success" = "student_success_room_table" ∧
    ∀ rt : String, rt ≠ "silent" → rt ≠ "study" → rt ≠ "group" → rt ≠ "success" →
      tableIdFor rt = "group_discussion_room_table" := by
  refine ⟨by decide, by decide, by decide, by decide, fun rt h1 h2 h3 h4 => ?_⟩
  simp [tableIdFor, dictGet, ROOM_TABLE_IDS, h1, h2, h3, h4]

/-- C4: the login response is classified by case-insensitive substring scan
with the priority success (`logout` or `dashboard`), then wrong captcha
(`captcha` and `incorrect`), then wrong credentials (`password` and
`incorrect`), else unknown failure carrying the final URL; `login` returns
`true` exactly on the success classification. -/
theorem login_response_classification (body url : String) :
    (classifyLogin body url = .success ↔
      (containsSub "logout" (lowerStr body)
        || containsSub "dashboard" (lowerStr body)) = true) ∧
    (classifyLogin body url = .wrongCaptcha ↔
      ((containsSub "logout" (lowerStr body)
          || containsSub "dashboard" (lowerStr body)) = false ∧
       (containsSub "captcha" (lowerStr body)
          && containsSub "incorrect" (lowerStr body)) = true)) ∧
    (classifyLogin body url = .wrongCredentials ↔
      ((containsSub "logout" (lowerStr body)
          || containsSub "dashboard" (lowerStr body)) = false ∧
       (containsSub "captcha" (lowerStr body)
          && containsSub "incorrect" (lowerStr body)) = false ∧
       (containsSub "password" (lowerStr body)
          && containsSub "incorrect" (lowerStr body)) = true)) ∧
    (∀ u : String, classifyLogin body url = .unknown u ↔
      (url = u ∧
       (containsSub "logout" (lowerStr body)
          || containsSub "dashboard" (lowerStr body)) = false ∧
       (containsSub "captcha" (lowerStr body)
          && containsSub "incorrect" (lowerStr body)) = false ∧
       (containsSub "password" (lowerStr body)
          && containsSub "incorrect" (lowerStr body)) = false)) ∧
    (loginReturn body url = true ↔ classifyLogin body url = .success) := by
  cases h1 : (containsSub "logout" (lowerStr body)
      || containsSub "dashboard" (lowerStr body)) <;>
  cases h2 : (containsSub "captcha" (lowerStr body)
      && containsSub "incorrect" (lowerStr body)) <;>
  cases h3 : (containsSub "password" (lowerStr body)
      && containsSub "incorrect" (lowerStr body)) <;>
    simp [classifyLogin, loginReturn, h1, h2, h3]

/-- C6: `get_available_rooms` returns exactly the non-disabled booking
buttons of the requested category's table, in document order, filtered to
the target slot by exact string equality when one is given; a fetch error or
an absent table yields the empty sequence, and a table whose buttons are all
disabled yields the empty sequence. -/
theorem availability_filtering :
    (∀ (p : Portal) (ds rt : String) (tgt : Option Slot) (u : Unit),
       p.fragment ds = .error u → get_available_rooms p ds rt tgt = []) ∧
    (∀ (p : Portal) (ds rt : String) (tgt : Option Slot) tables,
       p.fragment ds = .ok tables → findTable tables (tableIdFor rt) = none →
       get_available_rooms p ds rt tgt = []) ∧
    (∀ (p : Portal) (ds rt : String) (tgt : Option Slot) tables btns,
       p.fragment ds = .ok tables → findTable tables (tableIdFor rt) = some btns →
       get_available_rooms p ds rt tgt
         = (btns.filter fun b => !b.disabled && matchesTarget tgt b).map btnInfo) ∧
    (∀ (p : Portal) (ds rt : String) (tgt : Option Slot) tables btns,
       p.fragment ds = .ok tables → findTable tables (tableIdFor rt) = some btns →
       (∀ b ∈ btns, b.disabled = true) → get_available_rooms p ds rt tgt = []) := by
  refine ⟨fun p ds rt tgt u hf => ?_, fun p ds rt tgt tables hf ht => ?_,
    fun p ds rt tgt tables btns hf ht => ?_, fun p ds rt tgt tables btns hf ht hd => ?_⟩
  · simp [get_available_rooms, hf]
  · simp [get_available_rooms, hf, ht]
  · simp [get_available_rooms, hf, ht, collectAvailable_eq]
  · have hfil : (btns.filter fun b => !b.disabled && matchesTarget tgt b) = [] :=
      List.filter_eq_nil_iff.mpr fun b hb => by simp [hd b hb]
    simp [get_available_rooms, hf, ht, collectAvailable_eq, hfil]

/-- C2: the resolved slot preference list is the explicit user list when one
is supplied; otherwise the weekend default (15:00–17:00, 13:00–15:00,
11:00–13:00) when the date's weekday index is ≥ 5 and the weekday default
(19:00–21:00, 17:00–19:00, 15:00–17:00) otherwise; 2025-06-14 is a Saturday
(weekday 5), and on it, with no explicit preference, the first weekend slot
with a non-empty result wins: only it is queried and its first room is
booked. -/
theorem preference_resolution_and_saturday_scenario :
    (∀ (prefs : List Slot) (bd : Date), resolveSlots (some prefs) bd = prefs) ∧
    (∀ bd : Date, resolveSlots none bd =
       if 5 ≤ pyWeekday bd then
         [("15:00", "17:00"), ("13:00", "15:00"), ("11:00", "13:00")]
       else [("19:00", "21:00"), ("17:00", "19:00"), ("15:00", "17:00")]) ∧
    pyWeekday ⟨2025, 6, 14⟩ = 5 ∧
    (∀ (p : Portal) (token rt : String) (r : RoomInfo) (rs : List RoomInfo),
       get_available_rooms p (fmtDate ⟨2025, 6, 14⟩) rt (some ("15:00", "17:00")) = r :: rs →
       searchSlots p token (fmtDate ⟨2025, 6, 14⟩) rt (resolveSlots none ⟨2025, 6, 14⟩)
         = ((book_room_ev p r token).1,
            Ev.query (fmtDate ⟨2025, 6, 14⟩) token rt (some ("15:00", "17:00"))
              :: (book_room_ev p r token).2)) := by
  refine ⟨fun prefs bd => rfl, fun bd => ?_, by decide, fun p token rt r rs h => ?_⟩
  · by_cases hw : 5 ≤ pyWeekday bd <;> simp [resolveSlots, hw] <;> decide
  · have hres : resolveSlots none ⟨2025, 6, 14⟩
        = [] ++ ("15:00", "17:00") :: [("13:00", "15:00"), ("11:00", "13:00")] := by decide
    rw [hres]
    have hh := searchSlots_hit p token (fmtDate ⟨2025, 6, 14⟩) rt []
      [("13:00", "15:00"), ("11:00", "13:00")] ("15:00", "17:00") r rs
      (by simp) h
    simpa using hh

/-- C1 counterexample: with the two-slot preference list (15:00–17:00,
13:00–15:00) on portal `pFail`, the first slot's query returns a room (second
conjunct), the booking attempt fails, and the status step then queries the
later slot 13:00–15:00 — so a later slot IS queried after a non-empty
result, refuting the claim as stated. -/
theorem search_requery_after_failed_booking_cex :
    processDate pFail "tok" "group"
        (some [("15:00", "17:00"), ("13:00", "15:00")]) ⟨2025, 6, 16⟩
      = ("failed",
         [Ev.query "2025-06-16" "tok" "group" (some ("15:00", "17:00")),
          Ev.book "tok" "tok" ⟨"R1", "2025-06-16", "15:00", "17:00"⟩,
          Ev.query "2025-06-16" "tok" "group" (some ("15:00", "17:00")),
          Ev.query "2025-06-16" "tok" "group" (some ("13:00", "15:00")),
          Ev.sleep 1]) ∧
    get_available_rooms pFail "2025-06-16" "group" (some ("15:00", "17:00")) ≠ [] := by
  constructor <;> decide

/-- C1 (amended): during the slot search the orchestrator queries the slots
in list order and stops at the first slot with a non-empty result; exactly
one booking attempt is made for the date, targeting exactly the first room
of that first non-empty result; only when that attempt fails does the
subsequent status-classification step re-query every slot of the list
(including later ones). -/
theorem first_match_single_booking_attempt (p : Portal) (token rt : String)
    (tp : Option (List Slot)) (bd : Date) (pre post : List Slot) (sl : Slot)
    (r : RoomInfo) (rs : List RoomInfo)
    (hs : resolveSlots tp bd = pre ++ sl :: post)
    (hpre : ∀ x ∈ pre, get_available_rooms p (fmtDate bd) rt (some x) = [])
    (hsl : get_available_rooms p (fmtDate bd) rt (some sl) = r :: rs) :
    processDate p token rt tp bd
      = (if (book_room_ev p r token).1 then "success" else "failed",
         ((pre.map fun x => Ev.query (fmtDate bd) token rt (some x))
            ++ Ev.query (fmtDate bd) token rt (some sl) :: (book_room_ev p r token).2)
           ++ (if (book_room_ev p r token).1 then []
               else (pre ++ sl :: post).map fun x => Ev.query (fmtDate bd) token rt (some x))
           ++ [Ev.sleep 1]) ∧
    (processDate p token rt tp bd).2.countP isBookEv = 1 ∧
    Ev.book token token ⟨r.room_id, r.date, r.start_time, r.end_time⟩
      ∈ (processDate p token rt tp bd).2 := by
  have hpd := processDate_hit p token rt tp bd pre post sl r rs hs hpre hsl
  refine ⟨hpd, ?_, ?_⟩
  · rw [hpd]
    cases hb : (book_room_ev p r token).1 <;>
      simp [hb, book_room_ev, List.countP_append, List.countP_cons, isBookEv,
        countP_book_query_map]
  · rw [hpd]
    simp [book_room_ev]

/-- C1 witness: on `pFail` with the two-slot list, exactly one booking
submission is made. -/
theorem first_match_single_booking_attempt_witness :
    (processDate pFail "tok" "group"
        (some [("15:00", "17:00"), ("13:00", "15:00")]) ⟨2025, 6, 16⟩).2.countP isBookEv
      = 1 :=
  (first_match_single_booking_attempt pFail "tok" "group"
      (some [("15:00", "17:00"), ("13:00", "15:00")]) ⟨2025, 6, 16⟩
      [] [("13:00", "15:00")] ("15:00", "17:00") infoA []
      rfl (by simp) (by decide)).2.1

/-- C5 counterexample: on `pFail` in any-time mode (empty preference list,
the `--date` path), the unfiltered query returns a room, a booking
submission is made (the `book` event in the trace), the portal answers
`code = 500` (second conjunct), yet the date's outcome is `no_rooms`, not
`failed` — refuting the claim that any non-200 code yields `failed`. -/
theorem anytime_failed_booking_reported_no_rooms_cex :
    processDate pFail "tok" "group" (some []) ⟨2025, 6, 16⟩
      = ("no_rooms",
         [Ev.query "2025-06-16" "tok" "group" none,
          Ev.book "tok" "tok" ⟨"R1", "2025-06-16", "15:00", "17:00"⟩,
          Ev.sleep 1]) ∧
    pFail.bookResp ⟨"R1", "2025-06-16", "15:00", "17:00"⟩
      = .ok ⟨500, "Room already booked"⟩ := by
  exact ⟨by decide, rfl⟩

/-- C5 (amended): a booking submission succeeds exactly when the portal
answers `code = 200`; for a date searched through a non-empty preference
list the outcome is `success` when the submission of the first room of the
first non-empty slot succeeds and `failed` when it fails (non-200 code or
transport error); in any-time mode (empty preference list) a failed
submission is instead reported `no_rooms`, because the status step re-checks
an empty slot list. -/
theorem booking_outcome_classification :
    (∀ (p : Portal) (info : RoomInfo) (token : String),
       (book_room_ev p info token).1 = true ↔
       ∃ m : String,
         p.bookResp ⟨info.room_id, info.date, info.start_time, info.end_time⟩
           = .ok ⟨200, m⟩) ∧
    (∀ (p : Portal) (token rt : String) (tp : Option (List Slot)) (bd : Date)
       (pre post : List Slot) (sl : Slot) (r : RoomInfo) (rs : List RoomInfo),
       resolveSlots tp bd = pre ++ sl :: post →
       (∀ x ∈ pre, get_available_rooms p (fmtDate bd) rt (some x) = []) →
       get_available_rooms p (fmtDate bd) rt (some sl) = r :: rs →
       (processDate p token rt tp bd).1
         = if (book_room_ev p r token).1 then "success" else "failed") ∧
    (∀ (p : Portal) (token rt : String) (tp : Option (List Slot)) (bd : Date)
       (r : RoomInfo) (rs : List RoomInfo),
       resolveSlots tp bd = [] →
       get_available_rooms p (fmtDate bd) rt none = r :: rs →
       (processDate p token rt tp bd).1
         = if (book_room_ev p r token).1 then "success" else "no_rooms") := by
  refine ⟨fun p info token => ?_, fun p token rt tp bd pre post sl r rs hs hpre hsl => ?_,
    fun p token rt tp bd r rs hs hg => ?_⟩
  · unfold book_room_ev
    cases hb : p.bookResp ⟨info.room_id, info.date, info.start_time, info.end_time⟩ with
    | error u => simp [hb]
    | ok resp =>
      cases resp with
      | mk c m => simp [hb, BookResp.mk.injEq]
  · rw [processDate_hit p token rt tp bd pre post sl r rs hs hpre hsl]
  · rw [processDate_anyTime p token rt tp bd hs, hg]

/-- C9 counterexample: the `--time` argument `morning-slot` contains no
well-formed `HH:MM-HH:MM` entry (first conjunct), yet `parse_time_slots`
keeps it, so the parsed preference list is not empty — refuting the claim's
consequence as stated. -/
theorem malformed_time_entry_kept_cex :
    ((pySplit "morning-slot" ',').all fun e => !(specWellFormedSlot (pyStrip e))) = true ∧
    parse_time_slots "morning-slot" = [("morning", "slot")] := by
  exact ⟨by decide, by decide⟩

/-- C9 (amended): `parse_time_slots` silently drops every comma-separated
entry that does not split on `-` into exactly two parts; when every entry of
the `--time` argument fails that test (rather than the stricter
`HH:MM-HH:MM` well-formedness) the parsed list is empty, and the booking
pass treats the empty list as the any-slot marker: the date's availability
queries consist of exactly one unfiltered query — the day-type defaults are
not applied and the input is not rejected. -/
theorem all_malformed_time_entries_dropped (t : String)
    (h : ∀ e ∈ pySplit t ',', (pySplit (pyStrip e) '-').length ≠ 2) :
    parse_time_slots t = [] ∧
    ∀ (p : Portal) (token rt : String) (bd : Date),
      (processDate p token rt (some (parse_time_slots t)) bd).2.filter isQueryEv
        = [Ev.query (fmtDate bd) token rt none] := by
  have hp : parse_time_slots t = [] := foldl_parseSlotStep_malformed _ [] h
  refine ⟨hp, fun p token rt bd => ?_⟩
  have hres : resolveSlots (some (parse_time_slots t)) bd = [] := by rw [hp]; rfl
  rw [processDate_anyTime p token rt _ bd hres]
  cases hg : get_available_rooms p (fmtDate bd) rt none with
  | nil => simp [isQueryEv]
  | cons r rs => simp [isQueryEv, book_room_ev]

/-- C9 witness: a `--time` argument whose three entries all fail to split
into two parts parses to the empty list. -/
theorem all_malformed_time_entries_dropped_witness :
    parse_time_slots "nine,to,five" = [] :=
  (all_malformed_time_entries_dropped "nine,to,five" (by decide)).1

/-- C7: whenever the booking pass reaches its per-date loop (the CSRF token
was extracted and the target date, if given, parses), `book_rooms` returns
`True` whatever the per-date outcomes are — for every portal, so for every
combination of `success`, `no_rooms` and `failed` outcomes: booking failure
is visible only in the recorded statuses, never in the return value. -/
theorem book_rooms_returns_true (p : Portal) (td : Option String)
    (tp : Option (List Slot)) (rt : String) (now : Date) (token : String)
    (hc : p.csrf = some token)
    (hd : ∀ s, td = some s → (parseDate s).isSome = true) :
    (book_rooms p td tp rt now).1 = true := by
  unfold book_rooms
  rw [hc]
  cases td with
  | none => rfl
  | some s =>
    cases hp : parseDate s with
    | none =>
      have hds := hd s rfl
      rw [hp] at hds
      simp at hds
    | some d => simp [hp]

/-- C7 witness: on `pFail` (every booking attempt rejected, so the one date
fails), the pass still returns `True`. -/
theorem book_rooms_returns_true_witness :
    (book_rooms pFail (some "2025-06-16") (some [("15:00", "17:00")]) "group"
        ⟨2025, 6, 14⟩).1 = true :=
  book_rooms_returns_true pFail (some "2025-06-16") (some [("15:00", "17:00")]) "group"
    ⟨2025, 6, 14⟩ "tok" rfl (fun s hs => by cases hs; decide)

/-- C8: when CSRF extraction succeeds, the fetch happens exactly once per
booking pass and before any date is processed (it is the first event), and
every availability query of the pass carries the fetched token as its CSRF
header, and every booking submission carries it both as the header and as
the `_token` form field; it is never re-fetched between dates, slots or
rooms. -/
theorem csrf_fetched_once_per_pass (p : Portal) (td : Option String)
    (tp : Option (List Slot)) (rt : String) (now : Date) (token : String)
    (hc : p.csrf = some token) :
    (book_rooms p td tp rt now).2.countP isFetchEv = 1 ∧
    (book_rooms p td tp rt now).2.head? = some Ev.fetchCsrf ∧
    (∀ (d t rt2 : String) (tgt : Option Slot),
       Ev.query d t rt2 tgt ∈ (book_rooms p td tp rt now).2 → t = token) ∧
    (∀ (ht ft : String) (req : BookReq),
       Ev.book ht ft req ∈ (book_rooms p td tp rt now).2 →
       ht = token ∧ ft = token) := by
  obtain ⟨rest, htr, hall⟩ := book_rooms_trace p td tp rt now token hc
  have hmem : ∀ ev ∈ rest, passEv token ev = true := List.all_eq_true.mp hall
  refine ⟨?_, ?_, ?_, ?_⟩
  · rw [htr, List.countP_cons]
    have hz : rest.countP isFetchEv = 0 :=
      List.countP_eq_zero.mpr fun ev hev => by
        have h2 := passEv_not_fetch token ev (hmem ev hev)
        simp [h2]
    simp [hz, isFetchEv]
  · rw [htr]; rfl
  · intro d t rt2 tgt hq
    rw [htr] at hq
    rcases List.mem_cons.mp hq with heq | hr
    · exact Ev.noConfusion heq
    · have hp := hmem _ hr
      simpa [passEv] using hp
  · intro ht ft req hb
    rw [htr] at hb
    rcases List.mem_cons.mp hb with heq | hr
    · exact Ev.noConfusion heq
    · have hp := hmem _ hr
      simpa [passEv] using hp

/-- C8 witness: on `pFail`, the pass trace holds exactly one CSRF fetch. -/
theorem csrf_fetched_once_per_pass_witness :
    (book_rooms pFail (some "2025-06-16") (some [("15:00", "17:00")]) "group"
        ⟨2025, 6, 14⟩).2.countP isFetchEv = 1 :=
  (csrf_fetched_once_per_pass pFail (some "2025-06-16") (some [("15:00", "17:00")])
      "group" ⟨2025, 6, 14⟩ "tok" rfl).1

/-- C3: login is attempted at most 3 times; when all three attempts fail the
run is exactly three attempts separated by fixed 2-second delays followed by
exit 1 — no CSRF fetch, availability query or booking submission appears;
when attempt `n` is the first success, exactly `n` attempts are made and the
booking pass proceeds (its CSRF fetch appears in the trace) with exit code
`none` (normal completion). -/
theorem login_retry_policy :
    (∀ (login : Nat → Bool) (p : Portal) (args : Args) (now : Date),
       (mainRun login p args now).2.countP isLoginEv ≤ 3) ∧
    (∀ (login : Nat → Bool) (p : Portal) (args : Args) (now : Date),
       login 1 = false → login 2 = false → login 3 = false →
       mainRun login p args now
         = (some 1,
            [Ev.loginAttempt 1, Ev.sleep 2, Ev.loginAttempt 2, Ev.sleep 2,
             Ev.loginAttempt 3, Ev.exit 1])) ∧
    (∀ (login : Nat → Bool) (p : Portal) (args : Args) (now : Date) (n : Nat),
       n ∈ ([1, 2, 3] : List Nat) → login n = true →
       (∀ m, 1 ≤ m → m < n → login m = false) →
       (mainRun login p args now).1 = none ∧
       (mainRun login p args now).2.countP isLoginEv = n ∧
       Ev.fetchCsrf ∈ (mainRun login p args now).2) := by
  refine ⟨fun login p args now => ?_, fun login p args now h1 h2 h3 => ?_,
    fun login p args now n hn hln hprev => ?_⟩
  · have hle : (loginAttempts login [1, 2, 3]).2.countP isLoginEv ≤ 3 := by
      simpa using loginAttempts_countP_le login [1, 2, 3]
    have hbz := book_rooms_no_login p args.date
      (if (resolveTimeArgs args).2 then some [] else (resolveTimeArgs args).1)
      args.room_type now
    unfold mainRun
    cases hla : (loginAttempts login [1, 2, 3]).1 <;>
      simp [hla, List.countP_append, List.countP_cons, isLoginEv, hbz] <;>
      omega
  · simp [mainRun, loginAttempts, h1, h2, h3]
  · have hbz := book_rooms_no_login p args.date
      (if (resolveTimeArgs args).2 then some [] else (resolveTimeArgs args).1)
      args.room_type now
    have hbm := book_rooms_fetch_mem p args.date
      (if (resolveTimeArgs args).2 then some [] else (resolveTimeArgs args).1)
      args.room_type now
    have hn3 : n = 1 ∨ n = 2 ∨ n = 3 := by simpa using hn
    rcases hn3 with rfl | rfl | rfl
    · simp [mainRun, loginAttempts, hln, List.countP_append, List.countP_cons,
        isLoginEv, hbz, hbm]
    · have h1 : login 1 = false := hprev 1 (by omega) (by omega)
      simp [mainRun, loginAttempts, hln, h1, List.countP_append, List.countP_cons,
        isLoginEv, hbz, hbm]
    · have h1 : login 1 = false := hprev 1 (by omega) (by omega)
      have h2 : login 2 = false := hprev 2 (by omega) (by omega)
      simp [mainRun, loginAttempts, hln, h1, h2, List.countP_append, List.countP_cons,
        isLoginEv, hbz, hbm]

end AutoBooking
